import Mathlib

/-!
Verification of the hedera-agent-kit core: the plugin lifecycle registry,
the dual-mode transaction execution strategy, tool-level error handling,
result post-processing, and the Hedera operations wrapper, as a shallow
embedding in Lean 4.  Stateful registry operations are modelled as explicit
state-passing functions over a `RegistryState`; logging and plugin-hook
invocations are recorded in the state as event traces; JavaScript exceptions
are modelled with `Except`/`Option` values.
-/

namespace HederaAgentKit

/-- Substring containment: `containsStr s pat` holds when `pat` occurs contiguously inside `s`
(the shallow embedding of "the log line contains ..."). -/
def containsStr (s pat : String) : Prop :=
  ∃ pre post : List Char, s.data = pre ++ pat.data ++ post

/-- A string prefixed with `lit` contains any `pat` that `lit` itself
starts with. -/
theorem containsStr_of_append (lit rest pat : String)
    (h : ∃ mid : List Char, lit.data = pat.data ++ mid) :
    containsStr (lit ++ rest) pat := by
  obtain ⟨mid, hm⟩ := h
  exact ⟨[], mid ++ rest.data, by simp [String.data_append, hm]⟩

/-- SDK-level transaction status (external `@hashgraph/sdk` `Status`
collaborator; only the constructors the core distinguishes are modelled). -/
inductive Status where
  | success
  | invalidTransaction
deriving DecidableEq

/-- Whether a status denotes a failed operation. -/
def Status.isFailure : Status → Bool
  | .success => false
  | .invalidTransaction => true

namespace PluginRegistry

/-!
## Plugin registry

Modelled from the spec: the `PluginRegistry` implementation
(`src/plugins/PluginRegistry`) is not among the provided sources — only its
unit tests are — so the registry operations below follow §4.1/§6/§7 of the
spec: an identity map in registration order, duplicate-identity rejection,
info-level "Plugin registered"/"Plugin unregistered" log lines, and
cleanup failures caught and logged at error level with
"Error during plugin cleanup".
-/

/-- Modelled from the spec: `PluginContext` = `{logger, config}`; the logger
collaborator is represented by the registry state's log, so only the
configuration mapping remains as data. -/
structure PluginContext where
  config : List (String × String)
deriving DecidableEq

/-- Modelled from the spec: a plugin as the registry sees it — identity
fields plus the observable behavior of its `initialize`/`cleanup` hooks
(`none` = the hook returns normally, `some msg` = the hook throws `msg`). -/
structure RPlugin where
  id : String
  name : String
  description : String
  version : String
  author : String
  initError : Option String
  cleanupError : Option String
deriving DecidableEq

/-- Log severity of the structured logger collaborator. -/
inductive LogLevel where
  | info
  | warn
  | error
  | debug
deriving DecidableEq

/-- Observable plugin-hook invocations made by the registry. -/
inductive Event where
  | initCalled (id : String) (ctx : PluginContext)
  | cleanupCalled (id : String)
deriving DecidableEq

/-- Modelled from the spec: the registry's state — its context, the
identity map in registration order, the lines written to the logger, and
the trace of plugin hooks invoked. -/
structure RegistryState where
  context : PluginContext
  entries : List (String × RPlugin)
  log : List (LogLevel × String)
  trace : List Event
deriving DecidableEq

/-- Outcome of a `registerPlugin` call (`throw` is modelled as returning
the error alongside the unchanged-or-updated state). -/
inductive RegisterOutcome where
  | ok
  | duplicateIdentity (id : String)
  | initFailure (msg : String)
deriving DecidableEq

/-- Modelled from the spec: `getPlugin(id)` returns the instance or
"not found" (no exception). -/
def getPlugin (st : RegistryState) (id : String) : Option RPlugin :=
  (st.entries.find? (fun e => e.1 == id)).map (·.2)

/-- Modelled from the spec: `getAllPlugins()` returns a snapshot of all
registered instances in registration order. -/
def getAllPlugins (st : RegistryState) : List RPlugin :=
  st.entries.map (·.2)

/-- Modelled from the spec: `registerPlugin(plugin)` fails with a
DuplicateIdentity error if the id is already present (prior entry never
replaced); otherwise calls `plugin.initialize(context)`, inserts under
`plugin.id`, and emits an info-level "Plugin registered" log line. -/
def registerPlugin (st : RegistryState) (p : RPlugin) : RegisterOutcome × RegistryState :=
  if (getPlugin st p.id).isSome then
    (RegisterOutcome.duplicateIdentity p.id, st)
  else
    let st1 := { st with trace := st.trace ++ [Event.initCalled p.id st.context] }
    match p.initError with
    | some msg => (RegisterOutcome.initFailure msg, st1)
    | none =>
        (RegisterOutcome.ok,
          { st1 with
            entries := st1.entries ++ [(p.id, p)],
            log := st1.log ++
              [(LogLevel.info,
                "Plugin registered: " ++ (p.name ++ (" (" ++ (p.id ++ ")"))))] })

/-- Modelled from the spec: `unregisterPlugin(id)` returns `false` when the
id is absent; otherwise invokes the plugin's `cleanup()` — catching and
logging any failure at error level with "Error during plugin cleanup" —
removes the entry regardless of the cleanup outcome, emits an info-level
"Plugin unregistered" line, and returns `true`. -/
def unregisterPlugin (st : RegistryState) (id : String) : Bool × RegistryState :=
  match getPlugin st id with
  | none => (false, st)
  | some p =>
      let st1 := { st with trace := st.trace ++ [Event.cleanupCalled id] }
      let st2 :=
        match p.cleanupError with
        | none => st1
        | some msg =>
            { st1 with
              log := st1.log ++
                [(LogLevel.error, "Error during plugin cleanup: " ++ msg)] }
      (true,
        { st2 with
          entries := st2.entries.filter (fun e => !(e.1 == id)),
          log := st2.log ++ [(LogLevel.info, "Plugin unregistered: " ++ id)] })

/-- Modelled from the spec: `unregisterAllPlugins()` unregisters every
currently registered plugin (same per-plugin semantics), sweeping a
snapshot of the identity map. -/
def unregisterAllPlugins (st : RegistryState) : RegistryState :=
  st.entries.foldl (fun s e => (unregisterPlugin s e.1).2) st

/-- The mock plugin of the unit tests, used as concrete witness input. -/
def mockPlugin : RPlugin :=
  { id := "mock-plugin-id"
    name := "Mock Plugin"
    description := "A mock plugin for testing"
    version := "1.0.0"
    author := "Test Author"
    initError := none
    cleanupError := none }

/-- The mock context of the unit tests: empty configuration. -/
def mockContext : PluginContext := { config := [] }

/-- A freshly constructed registry over the mock context. -/
def emptyRegistry : RegistryState :=
  { context := mockContext, entries := [], log := [], trace := [] }

/-- A mock plugin whose `cleanup()` throws, as in the cleanup-error test. -/
def failingCleanupPlugin : RPlugin :=
  { mockPlugin with cleanupError := some "Cleanup error" }

/-- A registry holding only `failingCleanupPlugin`. -/
def registryWithFailingCleanup : RegistryState :=
  (registerPlugin emptyRegistry failingCleanupPlugin).2

/-- Claim C1: registering a plugin whose id is already present fails with the
duplicate-identity error, leaves the registry state unchanged (the prior
entry is never replaced), and `getPlugin` afterwards still returns the
first-registered instance. -/
theorem registerPlugin_duplicate_rejected (st : RegistryState) (p q : RPlugin)
    (h : getPlugin st p.id = some q) :
    (registerPlugin st p).1 = RegisterOutcome.duplicateIdentity p.id ∧
    (registerPlugin st p).2 = st ∧
    getPlugin (registerPlugin st p).2 p.id = some q := by
  simp [registerPlugin, h]

/-- Witness for C1 at the mock plugin registered twice. -/
theorem registerPlugin_duplicate_rejected_witness :
    getPlugin (registerPlugin emptyRegistry mockPlugin).2 mockPlugin.id = some mockPlugin ∧
    ((registerPlugin (registerPlugin emptyRegistry mockPlugin).2 mockPlugin).1 =
        RegisterOutcome.duplicateIdentity mockPlugin.id ∧
      (registerPlugin (registerPlugin emptyRegistry mockPlugin).2 mockPlugin).2 =
        (registerPlugin emptyRegistry mockPlugin).2 ∧
      getPlugin (registerPlugin (registerPlugin emptyRegistry mockPlugin).2 mockPlugin).2
          mockPlugin.id = some mockPlugin) :=
  ⟨by decide, registerPlugin_duplicate_rejected _ mockPlugin mockPlugin (by decide)⟩

/-- Claim C4: registering a plugin under a fresh id succeeds, invokes the
plugin's `initialize` with the registry's context, makes `getPlugin` return
the plugin, and emits an info-level log line containing
"Plugin registered". -/
theorem registerPlugin_success_registers (st : RegistryState) (p : RPlugin)
    (h1 : getPlugin st p.id = none) (h2 : p.initError = none) :
    (registerPlugin st p).1 = RegisterOutcome.ok ∧
    Event.initCalled p.id st.context ∈ (registerPlugin st p).2.trace ∧
    getPlugin (registerPlugin st p).2 p.id = some p ∧
    ∃ l ∈ (registerPlugin st p).2.log, l.1 = LogLevel.info ∧
      containsStr l.2 "Plugin registered" := by
  have hfind : st.entries.find? (fun e => e.1 == p.id) = none :=
    Option.map_eq_none'.mp h1
  refine ⟨?_, ?_, ?_, ?_⟩
  · simp [registerPlugin, h1, h2]
  · simp [registerPlugin, h1, h2]
  · simp [registerPlugin, h1, h2, getPlugin, List.find?_append, hfind]
  · refine ⟨(LogLevel.info,
      "Plugin registered: " ++ (p.name ++ (" (" ++ (p.id ++ ")")))), ?_, rfl, ?_⟩
    · simp [registerPlugin, h1, h2]
    · exact containsStr_of_append _ _ _ ⟨(": ").data, by decide⟩

/-- Witness for C4 at the mock plugin and the empty registry. -/
theorem registerPlugin_success_registers_witness :
    (getPlugin emptyRegistry mockPlugin.id = none ∧ mockPlugin.initError = none) ∧
    ((registerPlugin emptyRegistry mockPlugin).1 = RegisterOutcome.ok ∧
      Event.initCalled mockPlugin.id emptyRegistry.context ∈
        (registerPlugin emptyRegistry mockPlugin).2.trace ∧
      getPlugin (registerPlugin emptyRegistry mockPlugin).2 mockPlugin.id = some mockPlugin ∧
      ∃ l ∈ (registerPlugin emptyRegistry mockPlugin).2.log, l.1 = LogLevel.info ∧
        containsStr l.2 "Plugin registered") :=
  ⟨⟨by decide, by decide⟩,
    registerPlugin_success_registers emptyRegistry mockPlugin (by decide) (by decide)⟩

/-- Claim C2: when a registered plugin's `cleanup()` throws,
`unregisterPlugin` still returns `true`, the plugin is removed
(`getPlugin` then returns `none`), and an error-level log line containing
"Error during plugin cleanup" is emitted; the function is total, so the
thrown error never propagates to the caller. -/
theorem unregisterPlugin_cleanup_error_graceful (st : RegistryState) (p : RPlugin)
    (id msg : String) (h1 : getPlugin st id = some p) (h2 : p.cleanupError = some msg) :
    (unregisterPlugin st id).1 = true ∧
    getPlugin (unregisterPlugin st id).2 id = none ∧
    ∃ l ∈ (unregisterPlugin st id).2.log, l.1 = LogLevel.error ∧
      containsStr l.2 "Error during plugin cleanup" := by
  have hfiltered : (st.entries.filter (fun e => !(e.1 == id))).find?
      (fun e => e.1 == id) = none := by
    apply List.find?_eq_none.mpr
    intro a ha
    have := (List.mem_filter.mp ha).2
    simpa using this
  refine ⟨?_, ?_, ?_⟩
  · simp [unregisterPlugin, h1, h2]
  · simp only [unregisterPlugin, h1, h2]
    simp only [getPlugin, Option.map_eq_none']
    exact hfiltered
  · refine ⟨(LogLevel.error, "Error during plugin cleanup: " ++ msg), ?_, rfl, ?_⟩
    · simp [unregisterPlugin, h1, h2]
    · exact containsStr_of_append _ _ _ ⟨(": ").data, by decide⟩

/-- Witness for C2 at a registry holding a plugin with a throwing cleanup. -/
theorem unregisterPlugin_cleanup_error_graceful_witness :
    (getPlugin registryWithFailingCleanup "mock-plugin-id" = some failingCleanupPlugin ∧
      failingCleanupPlugin.cleanupError = some "Cleanup error") ∧
    ((unregisterPlugin registryWithFailingCleanup "mock-plugin-id").1 = true ∧
      getPlugin (unregisterPlugin registryWithFailingCleanup "mock-plugin-id").2
        "mock-plugin-id" = none ∧
      ∃ l ∈ (unregisterPlugin registryWithFailingCleanup "mock-plugin-id").2.log,
        l.1 = LogLevel.error ∧ containsStr l.2 "Error during plugin cleanup") :=
  ⟨⟨by decide, by decide⟩,
    unregisterPlugin_cleanup_error_graceful registryWithFailingCleanup
      failingCleanupPlugin "mock-plugin-id" "Cleanup error" (by decide) (by decide)⟩

/-- A second mock plugin with a distinct id. -/
def mockPlugin2 : RPlugin := { mockPlugin with id := "mock-plugin-2" }

/-- A registry holding `failingCleanupPlugin` and `mockPlugin2`. -/
def registryWithTwo : RegistryState :=
  (registerPlugin (registerPlugin emptyRegistry failingCleanupPlugin).2 mockPlugin2).2

/-- Unregistering never erases trace events: the trace only grows. -/
theorem mem_trace_unregisterPlugin (st : RegistryState) (id : String) (x : Event)
    (h : x ∈ st.trace) : x ∈ (unregisterPlugin st id).2.trace := by
  cases hg : getPlugin st id with
  | none => simpa [unregisterPlugin, hg] using h
  | some p =>
    cases hc : p.cleanupError with
    | none => simp [unregisterPlugin, hg, hc, h]
    | some m => simp [unregisterPlugin, hg, hc, h]

/-- Unregistering a present id records a `cleanupCalled` event. -/
theorem cleanupCalled_mem_unregisterPlugin (st : RegistryState) (id : String)
    (h : (getPlugin st id).isSome = true) :
    Event.cleanupCalled id ∈ (unregisterPlugin st id).2.trace := by
  cases hg : getPlugin st id with
  | none => rw [hg] at h; simp at h
  | some p =>
    cases hc : p.cleanupError with
    | none => simp [unregisterPlugin, hg, hc]
    | some m => simp [unregisterPlugin, hg, hc]

/-- Filtering out one key does not change lookups of a different key. -/
theorem find?_filter_ne {α : Type} (l : List (String × α)) (id k : String) (h : k ≠ id) :
    (l.filter (fun e => !(e.1 == id))).find? (fun e => e.1 == k) =
    l.find? (fun e => e.1 == k) := by
  induction l with
  | nil => rfl
  | cons x t ih =>
    by_cases hx : x.1 = id
    · have h1 : (x.1 == id) = true := by simpa using hx
      have h2 : (x.1 == k) = false := by
        rw [beq_eq_false_iff_ne, hx]
        exact fun hh => h hh.symm
      simp [List.filter_cons, h1, List.find?_cons, h2, ih]
    · have h1 : (x.1 == id) = false := beq_eq_false_iff_ne.mpr hx
      by_cases hxk : x.1 = k
      · have h2 : (x.1 == k) = true := by simpa using hxk
        simp [List.filter_cons, h1, List.find?_cons, h2]
      · have h2 : (x.1 == k) = false := beq_eq_false_iff_ne.mpr hxk
        simp [List.filter_cons, h1, List.find?_cons, h2, ih]

/-- Unregistering one id leaves lookups of other ids unchanged. -/
theorem getPlugin_unregisterPlugin_ne (st : RegistryState) (id k : String)
    (h : k ≠ id) : getPlugin (unregisterPlugin st id).2 k = getPlugin st k := by
  cases hg : getPlugin st id with
  | none => simp [unregisterPlugin, hg]
  | some p =>
    cases hc : p.cleanupError with
    | none =>
      simp only [unregisterPlugin, hg, hc]
      simp only [getPlugin]
      rw [find?_filter_ne _ _ _ h]
    | some m =>
      simp only [unregisterPlugin, hg, hc]
      simp only [getPlugin]
      rw [find?_filter_ne _ _ _ h]

/-- Every stored entry's key is found by `getPlugin`. -/
theorem getPlugin_isSome_of_mem (st : RegistryState) (e : String × RPlugin)
    (h : e ∈ st.entries) : (getPlugin st e.1).isSome = true := by
  have hf : (st.entries.find? (fun x => x.1 == e.1)).isSome :=
    List.find?_isSome.mpr ⟨e, h, by simp⟩
  simpa [getPlugin] using hf

/-- Entries surviving an unregister were present before and bear another key. -/
theorem entries_unregisterPlugin_sub (st : RegistryState) (id : String)
    (e : String × RPlugin) (h : e ∈ (unregisterPlugin st id).2.entries) :
    e ∈ st.entries ∧ e.1 ≠ id := by
  cases hg : getPlugin st id with
  | none =>
    have hf : st.entries.find? (fun x => x.1 == id) = none := Option.map_eq_none'.mp hg
    have he : e ∈ st.entries := by simpa [unregisterPlugin, hg] using h
    refine ⟨he, ?_⟩
    have := List.find?_eq_none.mp hf e he
    simpa using this
  | some p =>
    have he : e ∈ st.entries.filter (fun x => !(x.1 == id)) := by
      cases hc : p.cleanupError with
      | none => simpa [unregisterPlugin, hg, hc] using h
      | some m => simpa [unregisterPlugin, hg, hc] using h
    have hmf := List.mem_filter.mp he
    refine ⟨hmf.1, ?_⟩
    simpa using hmf.2

/-- Trace monotonicity through the unregister-all sweep. -/
theorem mem_trace_foldUnreg (l : List (String × RPlugin)) (st : RegistryState) (x : Event)
    (h : x ∈ st.trace) :
    x ∈ (l.foldl (fun s e => (unregisterPlugin s e.1).2) st).trace := by
  induction l generalizing st with
  | nil => simpa using h
  | cons a t ih => exact ih _ (mem_trace_unregisterPlugin _ _ _ h)

/-- Sweeping a key cover of the registry leaves it with no entries. -/
theorem foldUnreg_entries_nil (l : List (String × RPlugin)) (st : RegistryState)
    (h : ∀ e ∈ st.entries, e.1 ∈ l.map Prod.fst) :
    (l.foldl (fun s e => (unregisterPlugin s e.1).2) st).entries = [] := by
  induction l generalizing st with
  | nil =>
    simp only [List.foldl_nil]
    apply List.eq_nil_iff_forall_not_mem.mpr
    intro e he
    simpa using h e he
  | cons a t ih =>
    simp only [List.foldl_cons]
    apply ih
    intro e he
    obtain ⟨hmem, hne⟩ := entries_unregisterPlugin_sub st a.1 e he
    have hh := h e hmem
    simp only [List.map_cons, List.mem_cons] at hh
    rcases hh with h1 | h2
    · exact absurd h1 hne
    · exact h2

/-- Every swept plugin whose id is present (or already cleaned) ends up with
a `cleanupCalled` event in the trace. -/
theorem foldUnreg_cleanup_called (l : List (String × RPlugin)) (st : RegistryState)
    (h : ∀ e ∈ l, (getPlugin st e.1).isSome = true ∨ Event.cleanupCalled e.1 ∈ st.trace) :
    ∀ e ∈ l, Event.cleanupCalled e.1 ∈
      (l.foldl (fun s x => (unregisterPlugin s x.1).2) st).trace := by
  induction l generalizing st with
  | nil => intro e he; simp at he
  | cons a t ih =>
    intro e he
    simp only [List.foldl_cons]
    have hstep : ∀ x ∈ t, (getPlugin (unregisterPlugin st a.1).2 x.1).isSome = true ∨
        Event.cleanupCalled x.1 ∈ (unregisterPlugin st a.1).2.trace := by
      intro x hx
      rcases h x (List.mem_cons_of_mem _ hx) with hp | ht
      · by_cases hxk : x.1 = a.1
        · exact Or.inr (hxk ▸ cleanupCalled_mem_unregisterPlugin st a.1 (hxk ▸ hp))
        · exact Or.inl (by rw [getPlugin_unregisterPlugin_ne st a.1 x.1 hxk]; exact hp)
      · exact Or.inr (mem_trace_unregisterPlugin _ _ _ ht)
    rcases List.mem_cons.mp he with rfl | het
    · rcases h e (List.mem_cons_self _ _) with hp | ht
      · exact mem_trace_foldUnreg t _ _ (cleanupCalled_mem_unregisterPlugin st e.1 hp)
      · exact mem_trace_foldUnreg t _ _ (mem_trace_unregisterPlugin st e.1 _ ht)
    · exact ih _ hstep e het

/-- Claim C3: `unregisterAllPlugins()` leaves the registry empty
(`getAllPlugins()` returns the empty sequence) and invokes `cleanup()` on
every registered plugin, regardless of whether individual cleanups throw. -/
theorem unregisterAllPlugins_empties_and_cleans (st : RegistryState) :
    getAllPlugins (unregisterAllPlugins st) = [] ∧
    (unregisterAllPlugins st).entries = [] ∧
    ∀ e ∈ st.entries, Event.cleanupCalled e.1 ∈ (unregisterAllPlugins st).trace := by
  have hnil : (unregisterAllPlugins st).entries = [] := by
    simp only [unregisterAllPlugins]
    apply foldUnreg_entries_nil
    intro e he
    exact List.mem_map.mpr ⟨e, he, rfl⟩
  refine ⟨by simp [getAllPlugins, hnil], hnil, ?_⟩
  intro e he
  simp only [unregisterAllPlugins]
  refine foldUnreg_cleanup_called st.entries st ?_ e he
  intro x hx
  exact Or.inl (getPlugin_isSome_of_mem st x hx)

/-- Witness for C3 at a two-plugin registry, one cleanup throwing. -/
theorem unregisterAllPlugins_empties_and_cleans_witness :
    getAllPlugins (unregisterAllPlugins registryWithTwo) = [] ∧
    (unregisterAllPlugins registryWithTwo).entries = [] ∧
    ∀ e ∈ registryWithTwo.entries,
      Event.cleanupCalled e.1 ∈ (unregisterAllPlugins registryWithTwo).trace :=
  unregisterAllPlugins_empties_and_cleans registryWithTwo

end PluginRegistry

namespace Plugins

/-- The per-session configuration object (`Context` from
`shared/configuration`): a loosely typed configuration mapping. -/
def Context := List (String × String)

/-- The discovery-level view of a query tool (only the fields the claims
below inspect). -/
structure QueryTool where
  method : String

/-- Modelled from the spec: the method-name constant exported by the
get-topic-messages query tool module; the module itself is not among the
provided sources, only its import by the consensus query plugin is. -/
def GET_TOPIC_MESSAGES_QUERY_TOOL : String := "get_topic_messages_query_tool"

/-- Modelled from the spec: the tool producer the consensus query plugin
imports; only its existence matters to the claims below. -/
def getTopicMessagesQuery (_ctx : Context) : QueryTool :=
  { method := GET_TOPIC_MESSAGES_QUERY_TOOL }

/-- A plugin object embedded structurally, the way TypeScript types it: a
property the object literal does not define reads as `none` (JavaScript
`undefined`), and a method the literal does not define is recorded as
absent. -/
structure PluginValue where
  id : Option String
  name : Option String
  description : Option String
  version : Option String
  author : Option String
  hasInitializeMethod : Bool
  hasGetToolsMethod : Bool
  hasCleanupMethod : Bool
  tools : Option (Context → List QueryTool)

/-- The `coreConsensusQueryPlugin` object literal of
`src/typescript/src/plugins/core-consensus-query-plugin/index.ts`: it
defines exactly `name`, `version`, `description` and `tools`. -/
def coreConsensusQueryPlugin : PluginValue :=
  { id := none
    name := some "core-consensus-query-plugin"
    version := some "1.0.0"
    description := some "A plugin for Hedera Consensus Service queries"
    author := none
    hasInitializeMethod := false
    hasGetToolsMethod := false
    hasCleanupMethod := false
    tools := some (fun context => [getTopicMessagesQuery context]) }

/-- The plugin capability set in the spec's words (§4.2): identity fields
`id`, `name`, `description`, `version`, `author`, plus `initialize`,
`getTools` and `cleanup` methods (claim-side definition, to be compared
with the source's plugin value). -/
def providesPluginCapabilitySet (p : PluginValue) : Prop :=
  p.id.isSome = true ∧ p.name.isSome = true ∧ p.description.isSome = true ∧
  p.version.isSome = true ∧ p.author.isSome = true ∧
  p.hasInitializeMethod = true ∧ p.hasGetToolsMethod = true ∧
  p.hasCleanupMethod = true

/-- Claim C5, counterexample: the consensus-query plugin value does not
provide the claimed capability set — it carries no `id` or `author` field
and no `initialize`/`getTools`/`cleanup` methods. -/
theorem coreConsensusQueryPlugin_lacks_capability_set :
    ¬ providesPluginCapabilitySet coreConsensusQueryPlugin := by
  intro hcap
  have hid : coreConsensusQueryPlugin.id.isSome = true := hcap.1
  simp [coreConsensusQueryPlugin] at hid

/-- Claim C5, amended: a plugin value provides `name`, `description` and
`version` as strings fixed at construction together with a `tools(context)`
producer returning a sequence of tools; it carries no `id`/`author`
identity fields and no `initialize`/`getTools`/`cleanup` methods. -/
theorem coreConsensusQueryPlugin_shape :
    coreConsensusQueryPlugin.name = some "core-consensus-query-plugin" ∧
    coreConsensusQueryPlugin.version = some "1.0.0" ∧
    coreConsensusQueryPlugin.description =
      some "A plugin for Hedera Consensus Service queries" ∧
    coreConsensusQueryPlugin.tools.isSome = true ∧
    coreConsensusQueryPlugin.id = none ∧
    coreConsensusQueryPlugin.author = none ∧
    coreConsensusQueryPlugin.hasInitializeMethod = false ∧
    coreConsensusQueryPlugin.hasGetToolsMethod = false ∧
    coreConsensusQueryPlugin.hasCleanupMethod = false :=
  ⟨rfl, rfl, rfl, rfl, rfl, rfl, rfl, rfl, rfl⟩

end Plugins

namespace SignScheduleTool

/-!
## The sign-schedule-transaction tool
(`core-account-plugin/tools/account/sign-schedule-transaction.ts`)
-/

/-- The `RawTransactionResponse` shape as the tool populates it: a status
plus optional identity fields (absent fields are `none`). -/
structure RawTransactionResponse where
  status : Status
  transactionId : Option String := none
  accountId : Option String := none
  tokenId : Option String := none
  topicId : Option String := none
deriving DecidableEq

/-- The `ToolResult` shape: the raw result paired with the human-readable message. -/
structure ToolResult where
  raw : RawTransactionResponse
  humanMessage : String
deriving DecidableEq

/-- JavaScript template interpolation of the optional transaction id. -/
def interpolate : Option String → String
  | some s => s
  | none => "undefined"

/-- The tool's `postProcess`: a function of the raw response alone. -/
def postProcess (response : RawTransactionResponse) : String :=
  "Transaction successfully signed. Transaction ID: " ++
    interpolate response.transactionId

/-- A thrown JavaScript value: either an `Error` carrying a message, or any
other value (`error instanceof Error` fails). -/
inductive JsThrown where
  | jsError (message : String)
  | nonError
deriving DecidableEq

/-- The body of the tool's `try` block: build the transaction with
`HederaBuilder.signScheduleTransaction(params)`, then run
`handleTransaction(tx, client, context, postProcess)` — either step may
throw.  Builder and strategy are external collaborators, so their behavior
enters as arguments. -/
def tryBody {Tx : Type} (build : Except JsThrown Tx)
    (handle : Tx → Except JsThrown ToolResult) : Except JsThrown ToolResult :=
  match build with
  | .ok tx => handle tx
  | .error e => .error e

/-- The tool's execute function `signScheduleTransaction`: returns the strategy's result, and on any
throw builds the failure `ToolResult` in its catch clause with status
`Status.InvalidTransaction` and the fixed failure label, appending the
error's message when the thrown value is an `Error`. -/
def signScheduleTransaction {Tx : Type} (build : Except JsThrown Tx)
    (handle : Tx → Except JsThrown ToolResult) : ToolResult :=
  match tryBody build handle with
  | .ok result => result
  | .error e =>
      let errorDescription : String := "Failed to sign scheduled transaction"
      let message : String :=
        match e with
        | .jsError m => errorDescription ++ (":" ++ m)
        | .nonError => "Failed to sign scheduled transaction"
      { raw := { status := Status.invalidTransaction }, humanMessage := message }

/-- Claim C6: when construction or execution throws before the strategy's
result is returned, `signScheduleTransaction` does not raise (it is total)
and returns a `ToolResult` whose raw status is a failure status and whose
human message starts with the fixed failure label, appending the caught
error's message when the caught value is an `Error`. -/
theorem signScheduleTransaction_catches (Tx : Type) (build : Except JsThrown Tx)
    (handle : Tx → Except JsThrown ToolResult) (e : JsThrown)
    (h : tryBody build handle = Except.error e) :
    (signScheduleTransaction build handle).raw.status.isFailure = true ∧
    (∃ rest : String, (signScheduleTransaction build handle).humanMessage =
      "Failed to sign scheduled transaction" ++ rest) ∧
    ∀ m, e = JsThrown.jsError m →
      (signScheduleTransaction build handle).humanMessage =
        "Failed to sign scheduled transaction" ++ (":" ++ m) := by
  refine ⟨?_, ?_, ?_⟩
  · cases e <;> simp [signScheduleTransaction, h, Status.isFailure]
  · cases e with
    | jsError m => exact ⟨":" ++ m, by simp [signScheduleTransaction, h]⟩
    | nonError => exact ⟨"", by simp [signScheduleTransaction, h]⟩
  · intro m hm
    subst hm
    simp [signScheduleTransaction, h]

/-- A sample builder that throws an `Error` with message "boom". -/
def throwingBuild : Except JsThrown Unit := Except.error (JsThrown.jsError "boom")

/-- A sample strategy continuation (never reached by `throwingBuild`). -/
def sampleHandle : Unit → Except JsThrown ToolResult :=
  fun _ => Except.error JsThrown.nonError

/-- Witness for C6 at a builder that throws an `Error` with message
"boom". -/
theorem signScheduleTransaction_catches_witness :
    tryBody throwingBuild sampleHandle = Except.error (JsThrown.jsError "boom") ∧
    ((signScheduleTransaction throwingBuild sampleHandle).raw.status.isFailure = true ∧
      (∃ rest : String,
        (signScheduleTransaction throwingBuild sampleHandle).humanMessage =
        "Failed to sign scheduled transaction" ++ rest) ∧
      ∀ m, JsThrown.jsError "boom" = JsThrown.jsError m →
        (signScheduleTransaction throwingBuild sampleHandle).humanMessage =
          "Failed to sign scheduled transaction" ++ (":" ++ m)) :=
  ⟨rfl, signScheduleTransaction_catches Unit throwingBuild sampleHandle
    (JsThrown.jsError "boom") rfl⟩

/-- Claim C7: the post-processor is a deterministic pure function of the raw
result alone — it takes no context and performs no effects, and its output
depends only on the response's `transactionId` field, so any two
invocations on equal raw results yield the same message. -/
theorem postProcess_deterministic (r1 r2 : RawTransactionResponse)
    (h : r1.transactionId = r2.transactionId) :
    postProcess r1 = postProcess r2 := by
  simp [postProcess, h]

/-- A successful sample raw response. -/
def sampleOk : RawTransactionResponse :=
  { status := Status.success, transactionId := some "0.0.1234@17.5" }

/-- A failed sample raw response carrying the same transaction id. -/
def sampleFailed : RawTransactionResponse :=
  { status := Status.invalidTransaction, transactionId := some "0.0.1234@17.5" }

/-- Witness for C7 at two responses sharing a transaction id. -/
theorem postProcess_deterministic_witness :
    sampleOk.transactionId = sampleFailed.transactionId ∧
    postProcess sampleOk = postProcess sampleFailed :=
  ⟨rfl, postProcess_deterministic sampleOk sampleFailed rfl⟩

end SignScheduleTool

namespace TxModeStrategy

/-!
## Dual-mode execution strategy

Modelled from the spec: the strategy module
(`shared/strategies/tx-mode-strategy`) is not among the provided sources —
only its importers are — so the two terminal strategies below follow §4.3:
execute-and-wait submits through the network client and maps the outcome
into `RawResult`; return-unsigned-bytes skips submission and returns the
serialized transaction payload with no transaction id.  Interactions with
the network client are recorded as an explicit list of calls.
-/

/-- The execution mode selecting the terminal strategy. -/
inductive ExecutionMode where
  | executeAndWait
  | returnBytes
deriving DecidableEq

/-- An abstract constructed (unsigned) transaction: an operation kind plus
a body — enough to carry a faithful serialize/deserialize pair. -/
structure Tx where
  kind : Nat
  body : List Nat
deriving DecidableEq

/-- Serialization of a transaction to a transportable byte form. -/
def txToBytes (tx : Tx) : List Nat := tx.kind :: tx.body

/-- Deserialization of a transportable byte form back to a transaction. -/
def txFromBytes : List Nat → Option Tx
  | [] => none
  | k :: b => some { kind := k, body := b }

/-- Outcome delivered by the network client's submission path. -/
structure SubmitOutcome where
  transactionId : String
  status : Status
deriving DecidableEq

/-- The network client collaborator, reduced to its submission path. -/
structure Client where
  submit : Tx → SubmitOutcome

/-- Calls made to the network client during a strategy run. -/
inductive ClientCall where
  | submitTransaction (tx : Tx)
deriving DecidableEq

/-- The mode-agnostic raw result shape both strategies return. -/
structure RawResult where
  status : Status
  transactionId : Option String
  bytes : Option (List Nat)
deriving DecidableEq

/-- Modelled from the spec: both strategies accept the same
`(transaction, client)` pair and return the same `RawResult` shape; the
second component records every interaction with the network client. -/
def handle (mode : ExecutionMode) (tx : Tx) (client : Client) :
    RawResult × List ClientCall :=
  match mode with
  | .executeAndWait =>
      let outcome := client.submit tx
      ({ status := outcome.status
         transactionId := some outcome.transactionId
         bytes := none },
       [ClientCall.submitTransaction tx])
  | .returnBytes =>
      ({ status := Status.success
         transactionId := none
         bytes := some (txToBytes tx) }, [])

/-- Claim C8: the return-bytes strategy never invokes the network client's
submission path, returns no transaction id, and returns a serialized
payload from which the constructed transaction is decodable. -/
theorem handle_returnBytes_offline (tx : Tx) (client : Client) :
    (handle ExecutionMode.returnBytes tx client).2 = [] ∧
    (handle ExecutionMode.returnBytes tx client).1.transactionId = none ∧
    ∃ b, (handle ExecutionMode.returnBytes tx client).1.bytes = some b ∧
      txFromBytes b = some tx :=
  ⟨rfl, rfl, txToBytes tx, rfl, rfl⟩

/-- Witness for C8 at a concrete transaction and client. -/
theorem handle_returnBytes_offline_witness :
    (handle ExecutionMode.returnBytes { kind := 7, body := [1, 2] }
      { submit := fun _ => { transactionId := "0.0.9@1.2", status := Status.success } }).2
        = [] ∧
    (handle ExecutionMode.returnBytes { kind := 7, body := [1, 2] }
      { submit := fun _ => { transactionId := "0.0.9@1.2", status := Status.success } }).1.transactionId
        = none ∧
    ∃ b, (handle ExecutionMode.returnBytes { kind := 7, body := [1, 2] }
      { submit := fun _ => { transactionId := "0.0.9@1.2", status := Status.success } }).1.bytes
        = some b ∧ txFromBytes b = some { kind := 7, body := [1, 2] } :=
  handle_returnBytes_offline { kind := 7, body := [1, 2] }
    { submit := fun _ => { transactionId := "0.0.9@1.2", status := Status.success } }

end TxModeStrategy

namespace HederaOperationsWrapper

/-!
## `HederaOperationsWrapper` (transfer construction and balance queries)
-/

/-- One token-transfer entry of an SDK `TransferTransaction`. -/
structure TokenTransfer where
  tokenId : String
  accountId : String
  amount : Int
deriving DecidableEq

/-- The SDK `TransferTransaction` as the wrapper constructs it: the ordered
list of token-transfer entries added to it. -/
structure TransferTransaction where
  tokenTransfers : List TokenTransfer
deriving DecidableEq

/-- The SDK method `TransferTransaction.addTokenTransfer(tokenId, accountId, amount)`:
appends one token-transfer entry. -/
def TransferTransaction.addTokenTransfer (tx : TransferTransaction)
    (tokenId accountId : String) (amount : Int) : TransferTransaction :=
  { tx with tokenTransfers := tx.tokenTransfers ++
      [{ tokenId := tokenId, accountId := accountId, amount := amount }] }

/-- The network client handle, reduced to its `_operatorAccountId`. -/
structure Client where
  operatorAccountId : String

/-- Parameters of `transferFungible`; the source's `from` and `to` fields
are spelled `fromAccount` and `toAccount` here (`from` and `to` are
reserved in Lean). -/
structure TransferFungibleParams where
  tokenId : String
  fromAccount : Option String
  toAccount : String
  amount : Int

/-- The `TransferTransaction` constructed by
`HederaOperationsWrapper.transferFungible`: credit `amount` to `to`, debit
`amount` from `from ?? client._operatorAccountId` (the subsequent
`executeStrategy.handle` call hands this transaction to the execution
strategy). -/
def transferFungible (client : Client) (params : TransferFungibleParams) :
    TransferTransaction :=
  TransferTransaction.addTokenTransfer
    (TransferTransaction.addTokenTransfer { tokenTransfers := [] }
      params.tokenId params.toAccount params.amount)
    params.tokenId (params.fromAccount.getD client.operatorAccountId)
    (-params.amount)

/-- Claim C9: the transaction `transferFungible` constructs carries exactly
two token-transfer entries for the given token — `+amount` to `to` and
`-amount` from `from` (defaulting to the client's operator account) — and
the transfer amounts for that token sum to zero. -/
theorem transferFungible_balanced (client : Client) (params : TransferFungibleParams) :
    (transferFungible client params).tokenTransfers.filter
        (fun t => t.tokenId == params.tokenId) =
      [{ tokenId := params.tokenId, accountId := params.toAccount, amount := params.amount },
       { tokenId := params.tokenId,
         accountId := params.fromAccount.getD client.operatorAccountId,
         amount := -params.amount }] ∧
    (((transferFungible client params).tokenTransfers.filter
        (fun t => t.tokenId == params.tokenId)).map TokenTransfer.amount).sum = 0 := by
  constructor
  · simp [transferFungible, TransferTransaction.addTokenTransfer]
  · simp [transferFungible, TransferTransaction.addTokenTransfer]

/-- Witness for C9 at a concrete transfer with a defaulted sender. -/
theorem transferFungible_balanced_witness :
    (transferFungible { operatorAccountId := "0.0.2" }
        { tokenId := "0.0.77", fromAccount := none, toAccount := "0.0.5",
          amount := 40 }).tokenTransfers.filter (fun t => t.tokenId == "0.0.77") =
      [{ tokenId := "0.0.77", accountId := "0.0.5", amount := 40 },
       { tokenId := "0.0.77", accountId := "0.0.2", amount := -40 }] ∧
    (((transferFungible { operatorAccountId := "0.0.2" }
        { tokenId := "0.0.77", fromAccount := none, toAccount := "0.0.5",
          amount := 40 }).tokenTransfers.filter
        (fun t => t.tokenId == "0.0.77")).map TokenTransfer.amount).sum = 0 :=
  transferFungible_balanced { operatorAccountId := "0.0.2" }
    { tokenId := "0.0.77", fromAccount := none, toAccount := "0.0.5", amount := 40 }

/-- Lookup in a token-keyed map of the SDK balance snapshot (`Map.get`:
`none` when the key is absent). -/
def balanceMapGet (m : List (String × Nat)) (tokenId : String) : Option Nat :=
  (m.find? (fun e => e.1 == tokenId)).map (·.2)

/-- The SDK `AccountBalance` snapshot: the `tokens` and `tokenDecimals`
maps, either of which may be absent. -/
structure AccountBalance where
  tokens : Option (List (String × Nat))
  tokenDecimals : Option (List (String × Nat))

/-- The `{balance, decimals}` result shape. -/
structure TokenBalanceInfo where
  balance : Nat
  decimals : Nat
deriving DecidableEq

/-- The wrapper method `getAccountTokenBalances(accountId, tokenId)`: fetch the account's
balance snapshot (the network query enters as the `getAccountBalances`
argument), then look the token up in both maps, defaulting each component
to `0` (`?? 0`). -/
def getAccountTokenBalances (getAccountBalances : String → AccountBalance)
    (accountId tokenId : String) : TokenBalanceInfo :=
  let accountTokenBalances := getAccountBalances accountId
  let balance :=
    (accountTokenBalances.tokens.bind (fun m => balanceMapGet m tokenId)).getD 0
  let decimals :=
    (accountTokenBalances.tokenDecimals.bind (fun m => balanceMapGet m tokenId)).getD 0
  { balance := balance, decimals := decimals }

/-- Whether the balance snapshot holds an entry for the token in either of
its maps. -/
def holdsTokenEntry (b : AccountBalance) (tokenId : String) : Bool :=
  (b.tokens.bind (fun m => balanceMapGet m tokenId)).isSome ||
  (b.tokenDecimals.bind (fun m => balanceMapGet m tokenId)).isSome

/-- Claim C10: when the account's balance snapshot holds no entry for the
token, `getAccountTokenBalances` returns `{balance := 0, decimals := 0}`
(it is total: it neither fails nor returns an absent value). -/
theorem getAccountTokenBalances_absent_zero
    (getAccountBalances : String → AccountBalance) (accountId tokenId : String)
    (h : holdsTokenEntry (getAccountBalances accountId) tokenId = false) :
    getAccountTokenBalances getAccountBalances accountId tokenId =
      { balance := 0, decimals := 0 } := by
  have hsplit := Bool.or_eq_false_iff.mp h
  have e1 : (getAccountBalances accountId).tokens.bind
      (fun m => balanceMapGet m tokenId) = none := by
    have := hsplit.1
    simpa using this
  have e2 : (getAccountBalances accountId).tokenDecimals.bind
      (fun m => balanceMapGet m tokenId) = none := by
    have := hsplit.2
    simpa using this
  simp [getAccountTokenBalances, e1, e2]

/-- A sample balance-snapshot source holding one unrelated token. -/
def sampleBalances : String → AccountBalance :=
  fun _ => { tokens := some [("0.0.5", 7)], tokenDecimals := none }

/-- Witness for C10 at a snapshot with no entry for the token. -/
theorem getAccountTokenBalances_absent_zero_witness :
    holdsTokenEntry (sampleBalances "0.0.1001") "0.0.999" = false ∧
    getAccountTokenBalances sampleBalances "0.0.1001" "0.0.999" =
      { balance := 0, decimals := 0 } :=
  ⟨by decide, getAccountTokenBalances_absent_zero sampleBalances "0.0.1001" "0.0.999"
    (by decide)⟩

end HederaOperationsWrapper

end HederaAgentKit
